import Mathlib

/-!
Shallow embedding of `components/tidb_query_datatype/src/codec/data_type/mod.rs`:
the concrete eval types, the truthiness conversion (`AsMySQLBool`), the three
type-dispatch capabilities (`Evaluable`, `EvaluableRet`, `EvaluableRef`) and the
scalar/vector tagged unions they extract from.  Byte strings are lists of
naturals, the non-NaN float wrapper `Real` carries a rational, and the sibling
codec payload types (`Decimal`, `DateTime`, `Duration`, `Json`) are opaque value
types, exactly as this module consumes them.  Rust's `unimplemented!()` on a
variant mismatch is modelled as the `Except` error `Unimplemented.unimplemented`.
-/

namespace DataType

/-- Modelled from the spec: the type-tag enumeration `EvalType` (crate root, not
shown here), one tag per concrete type: {integer, real, decimal, bytes,
datetime, duration, json}. -/
inductive EvalType where
  | Int
  | Real
  | Decimal
  | Bytes
  | DateTime
  | Duration
  | Json
deriving DecidableEq, Repr

/-- The seven concrete eval types, as an index for the per-type capability
implementations that the macros `impl_evaluable_type!`, `impl_evaluable_ret!`
and the `EvaluableRef` impls generate. -/
inductive ConcreteType where
  | Int
  | Real
  | Decimal
  | Bytes
  | DateTime
  | Duration
  | Json
deriving DecidableEq, Repr

/-- Source: `pub type Bytes = Vec<u8>`; a byte string is a list of byte values. -/
abbrev Bytes := List Nat

/-- Source: `pub type BytesRef<'a> = &'a [u8]`; a borrowed slice carries the
same byte data as the owned vector. -/
abbrev BytesRef := List Nat

/-- Source: `pub type Real = ordered_float::NotNan<f64>`; the non-NaN floating
value is modelled as a rational number inside the NotNan-style wrapper. -/
structure Real where
  val : Rat
deriving DecidableEq, Repr

/-- Source: `NotNan::into_inner`, the raw floating value inside the wrapper. -/
def Real.into_inner (r : Real) : Rat := r.val

/-- Opaque sibling-codec decimal payload (`crate::codec::mysql::Decimal`);
this module never inspects it. -/
structure Decimal where
  val : Int
deriving DecidableEq, Repr

/-- Opaque sibling-codec datetime payload (`Time`, re-exported as `DateTime`). -/
structure DateTime where
  val : Nat
deriving DecidableEq, Repr

/-- Opaque sibling-codec duration payload. -/
structure Duration where
  val : Int
deriving DecidableEq, Repr

/-- Opaque sibling-codec JSON payload (`crate::codec::mysql::Json`), structured
so that non-trivial nested payloads exist; this module never inspects it. -/
inductive Json where
  | null
  | bool (b : Bool)
  | num (q : Rat)
  | str (s : List Nat)
  | arr (xs : List Json)
  | obj (kvs : List (List Nat × Json))

/-- Source: `JsonRef<'a>`, the borrowed JSON form; it carries the same JSON data
as the owned value. -/
abbrev JsonRef := Json

/-- The Rust payload type behind each concrete eval type. -/
def payloadOf : ConcreteType → Type
  | ConcreteType.Int => Int
  | ConcreteType.Real => Real
  | ConcreteType.Decimal => Decimal
  | ConcreteType.Bytes => Bytes
  | ConcreteType.DateTime => DateTime
  | ConcreteType.Duration => Duration
  | ConcreteType.Json => Json

/-- A fixed-size chunked column viewed abstractly as its per-row optional
values (value buffer under its null bitmap). -/
abbrev ChunkedVecSized (α : Type) := List (Option α)

/-- The byte chunked column, same abstract per-row view. -/
abbrev ChunkedVecBytes := List (Option Bytes)

/-- The JSON chunked column, same abstract per-row view. -/
abbrev ChunkedVecJson := List (Option Json)

/-- Modelled from the spec: the scalar tagged union `ScalarValue` (module
`scalar`, not shown): exactly one variant per concrete type, each holding an
optional (nullable) payload. -/
inductive ScalarValue where
  | Int (x : Option Int)
  | Real (x : Option Real)
  | Decimal (x : Option Decimal)
  | Bytes (x : Option Bytes)
  | DateTime (x : Option DateTime)
  | Duration (x : Option Duration)
  | Json (x : Option Json)

/-- Modelled from the spec: the borrowing counterpart `ScalarValueRef` (module
`scalar`, not shown); it carries the same logical data as `ScalarValue`. -/
inductive ScalarValueRef where
  | Int (x : Option Int)
  | Real (x : Option Real)
  | Decimal (x : Option Decimal)
  | Bytes (x : Option Bytes)
  | DateTime (x : Option DateTime)
  | Duration (x : Option Duration)
  | Json (x : Option Json)

/-- Modelled from the spec: the vector tagged union `VectorValue` (module
`vector`, not shown): one chunked-column variant per concrete type. -/
inductive VectorValue where
  | Int (x : ChunkedVecSized Int)
  | Real (x : ChunkedVecSized Real)
  | Decimal (x : ChunkedVecSized Decimal)
  | Bytes (x : ChunkedVecBytes)
  | DateTime (x : ChunkedVecSized DateTime)
  | Duration (x : ChunkedVecSized Duration)
  | Json (x : ChunkedVecJson)

/-- The actual variant (runtime type tag) of a vector union. -/
def VectorValue.tag : VectorValue → ConcreteType
  | VectorValue.Int _ => ConcreteType.Int
  | VectorValue.Real _ => ConcreteType.Real
  | VectorValue.Decimal _ => ConcreteType.Decimal
  | VectorValue.Bytes _ => ConcreteType.Bytes
  | VectorValue.DateTime _ => ConcreteType.DateTime
  | VectorValue.Duration _ => ConcreteType.Duration
  | VectorValue.Json _ => ConcreteType.Json

/-- Builds the scalar union whose actual variant is `c` with the given optional
payload (the union constructor at type `c`). -/
def mkScalar : (c : ConcreteType) → Option (payloadOf c) → ScalarValue
  | ConcreteType.Int, x => ScalarValue.Int x
  | ConcreteType.Real, x => ScalarValue.Real x
  | ConcreteType.Decimal, x => ScalarValue.Decimal x
  | ConcreteType.Bytes, x => ScalarValue.Bytes x
  | ConcreteType.DateTime, x => ScalarValue.DateTime x
  | ConcreteType.Duration, x => ScalarValue.Duration x
  | ConcreteType.Json, x => ScalarValue.Json x

/-- Builds the borrowed scalar union whose actual variant is `c`. -/
def mkScalarRef : (c : ConcreteType) → Option (payloadOf c) → ScalarValueRef
  | ConcreteType.Int, x => ScalarValueRef.Int x
  | ConcreteType.Real, x => ScalarValueRef.Real x
  | ConcreteType.Decimal, x => ScalarValueRef.Decimal x
  | ConcreteType.Bytes, x => ScalarValueRef.Bytes x
  | ConcreteType.DateTime, x => ScalarValueRef.DateTime x
  | ConcreteType.Duration, x => ScalarValueRef.Duration x
  | ConcreteType.Json, x => ScalarValueRef.Json x

/-- Rust's `unimplemented!()` assertion failure, the panic raised when a union
is extracted at the wrong concrete type. -/
inductive Unimplemented where
  | unimplemented
deriving DecidableEq, Repr

/-- The five concrete types the macro `impl_evaluable_type!` is invoked on
(source lines 213 to 217): the `Evaluable` owned-value capability exists only
for them, not for bytes or json. -/
inductive SizedType where
  | Int
  | Real
  | Decimal
  | DateTime
  | Duration
deriving DecidableEq, Repr

/-- The concrete type a sized-type index stands for. -/
def SizedType.toConcrete : SizedType → ConcreteType
  | SizedType.Int => ConcreteType.Int
  | SizedType.Real => ConcreteType.Real
  | SizedType.Decimal => ConcreteType.Decimal
  | SizedType.DateTime => ConcreteType.DateTime
  | SizedType.Duration => ConcreteType.Duration

/-- Enumeration of the `impl_evaluable_type!` invocations. -/
def SizedType.all : List SizedType :=
  [SizedType.Int, SizedType.Real, SizedType.Decimal, SizedType.DateTime,
    SizedType.Duration]

/-- The `Evaluable` owned-value capability is implemented for concrete type `c`
exactly when some `impl_evaluable_type!` invocation targets it. -/
def evaluableImplementedFor (c : ConcreteType) : Prop :=
  ∃ s : SizedType, SizedType.toConcrete s = c

instance : DecidablePred evaluableImplementedFor := fun c =>
  decidable_of_iff
    (ConcreteType.Int = c ∨ ConcreteType.Real = c ∨ ConcreteType.Decimal = c
      ∨ ConcreteType.DateTime = c ∨ ConcreteType.Duration = c)
    (by
      constructor
      · rintro (h | h | h | h | h)
        · exact ⟨SizedType.Int, h⟩
        · exact ⟨SizedType.Real, h⟩
        · exact ⟨SizedType.Decimal, h⟩
        · exact ⟨SizedType.DateTime, h⟩
        · exact ⟨SizedType.Duration, h⟩
      · rintro ⟨s, h⟩
        cases s
        · exact Or.inl h
        · exact Or.inr (Or.inl h)
        · exact Or.inr (Or.inr (Or.inl h))
        · exact Or.inr (Or.inr (Or.inr (Or.inl h)))
        · exact Or.inr (Or.inr (Or.inr (Or.inr h))))

/-- Source `impl_evaluable_type!`: `const EVAL_TYPE: EvalType = EvalType::$ty`,
the owned-value capability's compile-time tag. -/
def Evaluable.EVAL_TYPE : SizedType → EvalType
  | SizedType.Int => EvalType.Int
  | SizedType.Real => EvalType.Real
  | SizedType.Decimal => EvalType.Decimal
  | SizedType.DateTime => EvalType.DateTime
  | SizedType.Duration => EvalType.Duration

/-- Source `impl_evaluable_type!`: `borrow_scalar_value` matches the union on
its own variant and hits `unimplemented!()` on every other variant. -/
def Evaluable.borrow_scalar_value :
    (s : SizedType) → ScalarValue →
      Except Unimplemented (Option (payloadOf s.toConcrete))
  | SizedType.Int, ScalarValue.Int x => Except.ok x
  | SizedType.Int, _ => Except.error Unimplemented.unimplemented
  | SizedType.Real, ScalarValue.Real x => Except.ok x
  | SizedType.Real, _ => Except.error Unimplemented.unimplemented
  | SizedType.Decimal, ScalarValue.Decimal x => Except.ok x
  | SizedType.Decimal, _ => Except.error Unimplemented.unimplemented
  | SizedType.DateTime, ScalarValue.DateTime x => Except.ok x
  | SizedType.DateTime, _ => Except.error Unimplemented.unimplemented
  | SizedType.Duration, ScalarValue.Duration x => Except.ok x
  | SizedType.Duration, _ => Except.error Unimplemented.unimplemented

/-- Source `impl_evaluable_type!`: `borrow_scalar_value_ref`, same assertion
discipline on the borrowed scalar union. -/
def Evaluable.borrow_scalar_value_ref :
    (s : SizedType) → ScalarValueRef →
      Except Unimplemented (Option (payloadOf s.toConcrete))
  | SizedType.Int, ScalarValueRef.Int x => Except.ok x
  | SizedType.Int, _ => Except.error Unimplemented.unimplemented
  | SizedType.Real, ScalarValueRef.Real x => Except.ok x
  | SizedType.Real, _ => Except.error Unimplemented.unimplemented
  | SizedType.Decimal, ScalarValueRef.Decimal x => Except.ok x
  | SizedType.Decimal, _ => Except.error Unimplemented.unimplemented
  | SizedType.DateTime, ScalarValueRef.DateTime x => Except.ok x
  | SizedType.DateTime, _ => Except.error Unimplemented.unimplemented
  | SizedType.Duration, ScalarValueRef.Duration x => Except.ok x
  | SizedType.Duration, _ => Except.error Unimplemented.unimplemented

/-- The chunked-column type the `EvaluableRet` capability associates with each
concrete type (`impl_evaluable_ret!`, lines 233 to 239): `ChunkedVecSized` for
the five sized types, `ChunkedVecBytes` for bytes, `ChunkedVecJson` for json. -/
def ChunkedTypeOf : ConcreteType → Type
  | ConcreteType.Int => ChunkedVecSized Int
  | ConcreteType.Real => ChunkedVecSized Real
  | ConcreteType.Decimal => ChunkedVecSized Decimal
  | ConcreteType.Bytes => ChunkedVecBytes
  | ConcreteType.DateTime => ChunkedVecSized DateTime
  | ConcreteType.Duration => ChunkedVecSized Duration
  | ConcreteType.Json => ChunkedVecJson

/-- Source `impl_evaluable_type!`: `borrow_vector_value` matches the vector
union on its own variant and hits `unimplemented!()` otherwise.  For the five
sized types `ChunkedTypeOf s.toConcrete` is exactly `ChunkedVecSized` of the
payload, matching the source's `&ChunkedVecSized<Self>` return type. -/
def Evaluable.borrow_vector_value :
    (s : SizedType) → VectorValue →
      Except Unimplemented (ChunkedTypeOf s.toConcrete)
  | SizedType.Int, VectorValue.Int x => Except.ok x
  | SizedType.Int, _ => Except.error Unimplemented.unimplemented
  | SizedType.Real, VectorValue.Real x => Except.ok x
  | SizedType.Real, _ => Except.error Unimplemented.unimplemented
  | SizedType.Decimal, VectorValue.Decimal x => Except.ok x
  | SizedType.Decimal, _ => Except.error Unimplemented.unimplemented
  | SizedType.DateTime, VectorValue.DateTime x => Except.ok x
  | SizedType.DateTime, _ => Except.error Unimplemented.unimplemented
  | SizedType.Duration, VectorValue.Duration x => Except.ok x
  | SizedType.Duration, _ => Except.error Unimplemented.unimplemented

/-- Source `impl_evaluable_ret!`: `const EVAL_TYPE: EvalType = EvalType::$ty`
for each of the seven concrete types. -/
def EvaluableRet.EVAL_TYPE : ConcreteType → EvalType
  | ConcreteType.Int => EvalType.Int
  | ConcreteType.Real => EvalType.Real
  | ConcreteType.Decimal => EvalType.Decimal
  | ConcreteType.Bytes => EvalType.Bytes
  | ConcreteType.DateTime => EvalType.DateTime
  | ConcreteType.Duration => EvalType.Duration
  | ConcreteType.Json => EvalType.Json

/-- Modelled from the spec: `VectorValue::from` (module `vector`, not shown)
wraps a freshly built chunked vector into the matching variant, infallibly. -/
def VectorValue.fromChunked : (c : ConcreteType) → ChunkedTypeOf c → VectorValue
  | ConcreteType.Int, x => VectorValue.Int x
  | ConcreteType.Real, x => VectorValue.Real x
  | ConcreteType.Decimal, x => VectorValue.Decimal x
  | ConcreteType.Bytes, x => VectorValue.Bytes x
  | ConcreteType.DateTime, x => VectorValue.DateTime x
  | ConcreteType.Duration, x => VectorValue.Duration x
  | ConcreteType.Json, x => VectorValue.Json x

/-- Source `impl_evaluable_ret!`: `into_vector_value(vec) = VectorValue::from(vec)`,
the owned-return capability's infallible conversion into the vector union. -/
def EvaluableRet.into_vector_value (c : ConcreteType) (vec : ChunkedTypeOf c) :
    VectorValue :=
  VectorValue.fromChunked c vec

/-- The seven `EvaluableRef` borrowed-value implementations: the blanket impl
`impl EvaluableRef for &'a T where T: Evaluable + EvaluableRet` (one per sized
type), plus the dedicated `BytesRef` and `JsonRef` impls. -/
inductive RefImpl where
  | ref (s : SizedType)
  | bytesRef
  | jsonRef
deriving DecidableEq, Repr

/-- Enumeration of the seven borrowed-value implementations. -/
def RefImpl.all : List RefImpl :=
  [RefImpl.ref SizedType.Int, RefImpl.ref SizedType.Real,
    RefImpl.ref SizedType.Decimal, RefImpl.ref SizedType.DateTime,
    RefImpl.ref SizedType.Duration, RefImpl.bytesRef, RefImpl.jsonRef]

/-- The associated type `EvaluableType` of each borrowed-value implementation:
the owned concrete type it borrows (`T` for `&'a T`, `Bytes` for `BytesRef`,
`Json` for `JsonRef`). -/
def RefImpl.EvaluableType : RefImpl → ConcreteType
  | RefImpl.ref s => s.toConcrete
  | RefImpl.bytesRef => ConcreteType.Bytes
  | RefImpl.jsonRef => ConcreteType.Json

/-- Source: the borrowed-value capability's compile-time tag.  The blanket impl
takes `<T as Evaluable>::EVAL_TYPE` (line 265); the `BytesRef` and `JsonRef`
impls pin `EvalType::Bytes` (line 308) and `EvalType::Json` (line 360). -/
def RefImpl.EVAL_TYPE : RefImpl → EvalType
  | RefImpl.ref s => Evaluable.EVAL_TYPE s
  | RefImpl.bytesRef => EvalType.Bytes
  | RefImpl.jsonRef => EvalType.Json

/-- Source: `EvaluableRef::borrow_scalar_value`.  The blanket impl delegates to
`Evaluable::borrow_scalar_value`; the `BytesRef` impl matches
`ScalarValue::Bytes(x) => x.as_ref().map(as_slice)` (a borrow of the same byte
data); the `JsonRef` impl matches `ScalarValue::Json(x) => x.as_ref().map(as_ref)`;
every other variant hits `unimplemented!()`. -/
def EvaluableRef.borrow_scalar_value :
    (r : RefImpl) → ScalarValue →
      Except Unimplemented (Option (payloadOf r.EvaluableType))
  | RefImpl.ref s, v => Evaluable.borrow_scalar_value s v
  | RefImpl.bytesRef, ScalarValue.Bytes x => Except.ok x
  | RefImpl.bytesRef, _ => Except.error Unimplemented.unimplemented
  | RefImpl.jsonRef, ScalarValue.Json x => Except.ok x
  | RefImpl.jsonRef, _ => Except.error Unimplemented.unimplemented

/-- Source: `EvaluableRef::borrow_scalar_value_ref`, same discipline on the
borrowed scalar union. -/
def EvaluableRef.borrow_scalar_value_ref :
    (r : RefImpl) → ScalarValueRef →
      Except Unimplemented (Option (payloadOf r.EvaluableType))
  | RefImpl.ref s, v => Evaluable.borrow_scalar_value_ref s v
  | RefImpl.bytesRef, ScalarValueRef.Bytes x => Except.ok x
  | RefImpl.bytesRef, _ => Except.error Unimplemented.unimplemented
  | RefImpl.jsonRef, ScalarValueRef.Json x => Except.ok x
  | RefImpl.jsonRef, _ => Except.error Unimplemented.unimplemented

/-- Source: `EvaluableRef::borrow_vector_value`.  The blanket impl delegates to
`Evaluable::borrow_vector_value`; the `BytesRef`/`JsonRef` impls match the
`Bytes`/`Json` vector variant and hit `unimplemented!()` otherwise. -/
def EvaluableRef.borrow_vector_value :
    (r : RefImpl) → VectorValue →
      Except Unimplemented (ChunkedTypeOf r.EvaluableType)
  | RefImpl.ref s, v => Evaluable.borrow_vector_value s v
  | RefImpl.bytesRef, VectorValue.Bytes x => Except.ok x
  | RefImpl.bytesRef, _ => Except.error Unimplemented.unimplemented
  | RefImpl.jsonRef, VectorValue.Json x => Except.ok x
  | RefImpl.jsonRef, _ => Except.error Unimplemented.unimplemented

/-- Source: `EvaluableRef::to_owned_value`.  The blanket impl clones
(`self.clone()`), `BytesRef` copies the bytes (`self.to_vec()`), `JsonRef`
copies the JSON (`self.to_owned()`); each produces an owned value carrying the
same data as the borrowed one. -/
def EvaluableRef.to_owned_value :
    (r : RefImpl) → payloadOf r.EvaluableType → payloadOf r.EvaluableType
  | RefImpl.ref _, x => x
  | RefImpl.bytesRef, b => b
  | RefImpl.jsonRef, j => j

/-- Source: `EvaluableRef::from_owned_value`.  The blanket impl takes a plain
reference (`&value`), `BytesRef` borrows the slice (`value.as_slice()`),
`JsonRef` borrows the JSON (`value.as_ref()`); each borrows the same data the
owned value holds. -/
def EvaluableRef.from_owned_value :
    (r : RefImpl) → payloadOf r.EvaluableType → payloadOf r.EvaluableType
  | RefImpl.ref _, x => x
  | RefImpl.bytesRef, b => b
  | RefImpl.jsonRef, j => j

/-- Modelled from the spec: the opaque conversion-policy context
(`crate::expr::EvalContext`), threaded into every truthiness and numeric
conversion call; this module only passes it along. -/
structure EvalContext where
  policyFlags : Nat
deriving DecidableEq, Repr

/-- Modelled from the spec: the recoverable conversion-error class carried by
`tidb_query_common::error::Result` (numeric parse failure, overflow under an
error-on-overflow policy); opaque to this module. -/
structure ConvertErr where
  code : Nat
deriving DecidableEq, Repr

/-- Modelled from the spec: the external numeric-parse conversion capability
`ConvertTo<f64>` for byte strings (module `codec::convert`, out of scope),
consumed as a parameter producing a floating value or a conversion error. -/
abbrev ConvertCap := BytesRef → EvalContext → Except ConvertErr Rat

/-- Source `impl AsMySQLBool for Int`: `Ok(*self != 0)`. -/
def Int.as_mysql_bool (i : Int) (_context : EvalContext) :
    Except ConvertErr Bool :=
  Except.ok (decide (i ≠ 0))

/-- Source `impl AsMySQLBool for Real`: `Ok(self.into_inner() != 0f64)`. -/
def Real.as_mysql_bool (r : Real) (_context : EvalContext) :
    Except ConvertErr Bool :=
  Except.ok (decide (r.into_inner ≠ 0))

/-- Source `impl AsMySQLBool for &'a T`: `(&**self).as_mysql_bool(context)`,
dereferencing to the underlying type's conversion `f`. -/
def Ref.as_mysql_bool {α : Type} (f : α → EvalContext → Except ConvertErr Bool)
    (r : α) (context : EvalContext) : Except ConvertErr Bool :=
  f r context

/-- Source `impl AsMySQLBool for BytesRef`:
`Ok(!self.is_empty() && ConvertTo::<f64>::convert(self, context)? != 0f64)`.
Rust's `&&` short-circuits, so an empty slice yields `Ok(false)` before the
conversion capability is invoked; otherwise `?` propagates the capability's
error and the remaining conjunction compares the parsed value with zero. -/
def BytesRef.as_mysql_bool (cv : ConvertCap) (b : BytesRef)
    (context : EvalContext) : Except ConvertErr Bool :=
  if b.isEmpty then Except.ok false
  else (cv b context).bind fun v => Except.ok (!b.isEmpty && decide (v ≠ 0))

/-- Source: `Vec::as_slice`, the borrowed view of an owned byte string. -/
def Bytes.as_slice (b : Bytes) : BytesRef := b

/-- Source `impl AsMySQLBool for Bytes`:
`self.as_slice().as_mysql_bool(context)`. -/
def Bytes.as_mysql_bool (cv : ConvertCap) (b : Bytes) (context : EvalContext) :
    Except ConvertErr Bool :=
  BytesRef.as_mysql_bool cv (Bytes.as_slice b) context

/-- Source `impl AsMySQLBool for JsonRef`: `Ok(false)` unconditionally — the
pinned placeholder tied to the unresolved upstream issue pingcap/tidb 9593. -/
def JsonRef.as_mysql_bool (_j : JsonRef) (_context : EvalContext) :
    Except ConvertErr Bool :=
  Except.ok false

/-- Source `impl AsMySQLBool for Option<&'a T>`: `None => Ok(false)`,
`Some(v) => v.as_mysql_bool(context)` through the `&'a T` impl. -/
def OptionRef.as_mysql_bool {α : Type}
    (f : α → EvalContext → Except ConvertErr Bool) :
    Option α → EvalContext → Except ConvertErr Bool
  | none, _ => Except.ok false
  | some v, context => Ref.as_mysql_bool f v context

/-- Source `impl AsMySQLBool for Option<BytesRef>`: `None => Ok(false)`,
`Some(v) => v.as_mysql_bool(context)`. -/
def OptionBytesRef.as_mysql_bool (cv : ConvertCap) :
    Option BytesRef → EvalContext → Except ConvertErr Bool
  | none, _ => Except.ok false
  | some v, context => BytesRef.as_mysql_bool cv v context

/-- Source `impl AsMySQLBool for Option<JsonRef>`: `None => Ok(false)`,
`Some(v) => v.as_mysql_bool(context)`. -/
def OptionJsonRef.as_mysql_bool :
    Option JsonRef → EvalContext → Except ConvertErr Bool
  | none, _ => Except.ok false
  | some v, context => JsonRef.as_mysql_bool v context

/-- C2: for every JSON payload (including non-trivial structured JSON) and
every conversion-policy context, truthiness conversion on a JSON reference
returns `Ok(false)`, unconditionally and without error. -/
theorem json_truthiness_always_false :
    ∀ (j : JsonRef) (context : EvalContext),
      JsonRef.as_mysql_bool j context = Except.ok false := by
  intro j context
  rfl

/-- C5: for every supported concrete type and every conversion-policy context,
truthiness conversion of an absent (`None`) optional value returns `Ok(false)`
— through the generic `Option` of a reference impl for any underlying
conversion, and through the dedicated byte-string and JSON impls — never an
error and never a tri-state unknown. -/
theorem none_truthiness_false :
    ∀ (context : EvalContext),
      (∀ (α : Type) (f : α → EvalContext → Except ConvertErr Bool),
        OptionRef.as_mysql_bool f none context = Except.ok false) ∧
      (∀ cv : ConvertCap,
        OptionBytesRef.as_mysql_bool cv none context = Except.ok false) ∧
      OptionJsonRef.as_mysql_bool none context = Except.ok false := by
  intro context
  exact ⟨fun _ _ => rfl, fun _ => rfl, rfl⟩

/-- C6: for every supported concrete type, converting a borrowed value to its
owned equivalent (`to_owned_value`) and borrowing back from that owned value
(`from_owned_value`) yields a value observably equal to the original. -/
theorem borrowed_owned_round_trip :
    ∀ (r : RefImpl) (x : payloadOf r.EvaluableType),
      EvaluableRef.from_owned_value r (EvaluableRef.to_owned_value r x) = x := by
  intro r x
  cases r <;> rfl

/-- C7: integer truthiness is false exactly at zero, real truthiness is false
exactly at 0.0, and neither conversion can return an error (each always
produces some `Ok` boolean). -/
theorem int_real_truthiness :
    ∀ (context : EvalContext) (i : Int) (r : Real),
      (Int.as_mysql_bool i context = Except.ok false ↔ i = 0) ∧
      (∃ b : Bool, Int.as_mysql_bool i context = Except.ok b) ∧
      (Real.as_mysql_bool r context = Except.ok false ↔ r.into_inner = 0) ∧
      (∃ b : Bool, Real.as_mysql_bool r context = Except.ok b) := by
  intro context i r
  refine ⟨?_, ⟨decide (i ≠ 0), rfl⟩, ?_, ⟨decide (r.into_inner ≠ 0), rfl⟩⟩
  · unfold Int.as_mysql_bool
    rcases h : decide (i ≠ 0) with _ | _
    · simp only [decide_eq_false_iff_not, not_not] at h
      simp [h]
    · simp only [decide_eq_true_eq] at h
      simp [h]
  · unfold Real.as_mysql_bool
    rcases h : decide (r.into_inner ≠ 0) with _ | _
    · simp only [decide_eq_false_iff_not, not_not] at h
      simp [h]
    · simp only [decide_eq_true_eq] at h
      simp [h]

/-- C9: truthiness of an owned byte string agrees exactly (same outcome) with
truthiness of its borrowed slice, and truthiness through a reference agrees
with the underlying type's own conversion, for every capability, context and
value. -/
theorem owned_borrowed_truthiness_agree :
    ∀ (cv : ConvertCap) (context : EvalContext) (b : Bytes) (α : Type)
      (f : α → EvalContext → Except ConvertErr Bool) (x : α),
      Bytes.as_mysql_bool cv b context
          = BytesRef.as_mysql_bool cv (Bytes.as_slice b) context ∧
      Ref.as_mysql_bool f x context = f x context := by
  intro cv context b α f x
  exact ⟨rfl, rfl⟩

/-- C10: every borrowed-value implementation's compile-time tag equals the tag
of its owned equivalent type — the blanket reference impl takes the owned
`Evaluable` tag, the borrowed bytes form carries the bytes tag, the borrowed
JSON form carries the json tag — so borrowed/owned conversion never changes
the dispatch tag. -/
theorem borrowed_tag_matches_owned :
    ∀ r : RefImpl,
      RefImpl.EVAL_TYPE r = EvaluableRet.EVAL_TYPE (RefImpl.EvaluableType r) ∧
      (∀ s : SizedType,
        RefImpl.EVAL_TYPE (RefImpl.ref s) = Evaluable.EVAL_TYPE s) ∧
      RefImpl.EVAL_TYPE RefImpl.bytesRef = EvalType.Bytes ∧
      RefImpl.EVAL_TYPE RefImpl.jsonRef = EvalType.Json := by
  intro r
  refine ⟨?_, fun s => rfl, rfl, rfl⟩
  cases r with
  | ref s => cases s <;> rfl
  | bytesRef => rfl
  | jsonRef => rfl

/-- C1: byte-string truthiness — the empty byte string evaluates to `Ok(false)`
without consulting the conversion capability (the result is the same under any
two capabilities); a non-empty byte string delegates to the capability, yields
false exactly when the parsed floating value is zero, and propagates the
capability's conversion error rather than returning false. -/
theorem bytes_truthiness_contract :
    ∀ (cv cv' : ConvertCap) (context : EvalContext) (b : BytesRef),
      (b = [] →
        BytesRef.as_mysql_bool cv b context = Except.ok false ∧
        BytesRef.as_mysql_bool cv b context
          = BytesRef.as_mysql_bool cv' b context) ∧
      (∀ (hd : Nat) (tl : List Nat), b = hd :: tl →
        (∀ q : Rat, cv b context = Except.ok q →
          BytesRef.as_mysql_bool cv b context = Except.ok (decide (q ≠ 0)) ∧
          (BytesRef.as_mysql_bool cv b context = Except.ok false ↔ q = 0)) ∧
        (∀ e : ConvertErr, cv b context = Except.error e →
          BytesRef.as_mysql_bool cv b context = Except.error e)) := by
  intro cv cv' context b
  constructor
  · rintro rfl
    exact ⟨rfl, rfl⟩
  · rintro hd tl rfl
    constructor
    · intro q hq
      have hres : BytesRef.as_mysql_bool cv (hd :: tl) context
          = Except.ok (decide (q ≠ 0)) := by
        simp [BytesRef.as_mysql_bool, hq, Except.bind]
      refine ⟨hres, ?_⟩
      rw [hres]
      rcases h : decide (q ≠ 0) with _ | _
      · simp only [decide_eq_false_iff_not, not_not] at h
        simp [h]
      · simp only [decide_eq_true_eq] at h
        simp [h]
    · intro e he
      simp [BytesRef.as_mysql_bool, he, Except.bind]

/-- C4: for every scalar union, borrowed-scalar union or vector union and every
concrete type, extracting or borrowing the typed payload or column through the
borrowed-value capability succeeds with the contained value when the union's
actual variant matches the requested type, and fails by the internal assertion
(`unimplemented!()`) — not a silent wrong result — whenever the variant
differs. -/
theorem union_access_assertion_discipline :
    (∀ (r : RefImpl) (c : ConcreteType) (x : Option (payloadOf c)),
      c = RefImpl.EvaluableType r ∨
        EvaluableRef.borrow_scalar_value r (mkScalar c x)
          = Except.error Unimplemented.unimplemented) ∧
    (∀ (r : RefImpl) (x : Option (payloadOf r.EvaluableType)),
      EvaluableRef.borrow_scalar_value r (mkScalar r.EvaluableType x)
        = Except.ok x) ∧
    (∀ (r : RefImpl) (c : ConcreteType) (x : Option (payloadOf c)),
      c = RefImpl.EvaluableType r ∨
        EvaluableRef.borrow_scalar_value_ref r (mkScalarRef c x)
          = Except.error Unimplemented.unimplemented) ∧
    (∀ (r : RefImpl) (x : Option (payloadOf r.EvaluableType)),
      EvaluableRef.borrow_scalar_value_ref r (mkScalarRef r.EvaluableType x)
        = Except.ok x) ∧
    (∀ (r : RefImpl) (c : ConcreteType) (xs : ChunkedTypeOf c),
      c = RefImpl.EvaluableType r ∨
        EvaluableRef.borrow_vector_value r (VectorValue.fromChunked c xs)
          = Except.error Unimplemented.unimplemented) ∧
    (∀ (r : RefImpl) (xs : ChunkedTypeOf r.EvaluableType),
      EvaluableRef.borrow_vector_value r
          (VectorValue.fromChunked r.EvaluableType xs)
        = Except.ok xs) := by
  refine ⟨?_, ?_, ?_, ?_, ?_, ?_⟩
  · intro r c x
    rcases r with s | _ | _
    · cases s <;> cases c <;> first | exact Or.inl rfl | exact Or.inr rfl
    · cases c <;> first | exact Or.inl rfl | exact Or.inr rfl
    · cases c <;> first | exact Or.inl rfl | exact Or.inr rfl
  · intro r x
    rcases r with s | _ | _
    · cases s <;> rfl
    · rfl
    · rfl
  · intro r c x
    rcases r with s | _ | _
    · cases s <;> cases c <;> first | exact Or.inl rfl | exact Or.inr rfl
    · cases c <;> first | exact Or.inl rfl | exact Or.inr rfl
    · cases c <;> first | exact Or.inl rfl | exact Or.inr rfl
  · intro r x
    rcases r with s | _ | _
    · cases s <;> rfl
    · rfl
    · rfl
  · intro r c xs
    rcases r with s | _ | _
    · cases s <;> cases c <;> first | exact Or.inl rfl | exact Or.inr rfl
    · cases c <;> first | exact Or.inl rfl | exact Or.inr rfl
    · cases c <;> first | exact Or.inl rfl | exact Or.inr rfl
  · intro r xs
    rcases r with s | _ | _
    · cases s <;> rfl
    · rfl
    · rfl

/-- C3 counterexample: the owned-value capability (`Evaluable`) is not
implemented for the bytes concrete type — no `impl_evaluable_type!` invocation
targets it — so the claim that each of the three capabilities is implemented
for every one of the seven concrete types fails at bytes. -/
theorem evaluable_missing_for_bytes :
    ¬ evaluableImplementedFor ConcreteType.Bytes := by
  decide

/-- C3 (amended): the owned-value capability is implemented once for exactly
the five fixed-size concrete types (integer, real, decimal, datetime,
duration); the borrowed-value capability is implemented once for every one of
the seven concrete types; and the owned-return capability's conversion of a
freshly built chunked vector into the vector union is infallible for every one
of the seven, always producing the variant carrying the requested type. -/
theorem capability_coverage :
    (∀ s : SizedType, s ∈ SizedType.all) ∧
    List.Nodup (List.map SizedType.toConcrete SizedType.all) ∧
    (∀ c : ConcreteType,
      evaluableImplementedFor c ↔
        c ∈ List.map SizedType.toConcrete SizedType.all) ∧
    (∀ r : RefImpl, r ∈ RefImpl.all) ∧
    List.Nodup (List.map RefImpl.EvaluableType RefImpl.all) ∧
    (∀ c : ConcreteType, c ∈ List.map RefImpl.EvaluableType RefImpl.all) ∧
    (∀ (c : ConcreteType) (vec : ChunkedTypeOf c),
      (EvaluableRet.into_vector_value c vec).tag = c) := by
  refine ⟨?_, ?_, ?_, ?_, ?_, ?_, ?_⟩
  · intro s
    cases s <;> decide
  · decide
  · intro c
    cases c <;> decide
  · intro r
    rcases r with s | _ | _
    · cases s <;> decide
    · decide
    · decide
  · decide
  · intro c
    cases c <;> decide
  · intro c vec
    cases c <;> rfl

/-- C8: every operation of this layer — truthiness conversion for each concrete
type, union extraction and borrowing, owned/borrowed conversion and the
owned-return conversion — is a deterministic pure function of its inputs
(conversion-policy context included): two runs on equal inputs produce equal
results. -/
theorem operations_deterministic :
    ∀ (cv : ConvertCap) (context context' : EvalContext),
      (∀ i i' : Int, i = i' → context = context' →
        Int.as_mysql_bool i context = Int.as_mysql_bool i' context') ∧
      (∀ r r' : Real, r = r' → context = context' →
        Real.as_mysql_bool r context = Real.as_mysql_bool r' context') ∧
      (∀ b b' : Bytes, b = b' → context = context' →
        Bytes.as_mysql_bool cv b context = Bytes.as_mysql_bool cv b' context') ∧
      (∀ j j' : JsonRef, j = j' → context = context' →
        JsonRef.as_mysql_bool j context = JsonRef.as_mysql_bool j' context') ∧
      (∀ (r : RefImpl) (v v' : ScalarValue), v = v' →
        EvaluableRef.borrow_scalar_value r v
          = EvaluableRef.borrow_scalar_value r v') ∧
      (∀ (r : RefImpl) (v v' : VectorValue), v = v' →
        EvaluableRef.borrow_vector_value r v
          = EvaluableRef.borrow_vector_value r v') ∧
      (∀ (r : RefImpl) (x x' : payloadOf r.EvaluableType), x = x' →
        EvaluableRef.to_owned_value r x = EvaluableRef.to_owned_value r x' ∧
        EvaluableRef.from_owned_value r x
          = EvaluableRef.from_owned_value r x') ∧
      (∀ (c : ConcreteType) (vec vec' : ChunkedTypeOf c), vec = vec' →
        EvaluableRet.into_vector_value c vec
          = EvaluableRet.into_vector_value c vec') := by
  intro cv context context'
  refine ⟨?_, ?_, ?_, ?_, ?_, ?_, ?_, ?_⟩
  · rintro i _ rfl rfl
    rfl
  · rintro r _ rfl rfl
    rfl
  · rintro b _ rfl rfl
    rfl
  · rintro j _ rfl rfl
    rfl
  · rintro r v _ rfl
    rfl
  · rintro r v _ rfl
    rfl
  · rintro r x _ rfl
    exact ⟨rfl, rfl⟩
  · rintro c vec _ rfl
    rfl

end DataType
